import Mathlib

/-!
Verification of the session relay and tunnel engine of the `ssh` package
(remote copy framer, forwarding tunnel, server channel handler).

The Go source is shallowly embedded: every stateful operation on the
session's input stream is recorded as an explicit event trace, fallible
operations are driven by an explicit fault environment, and machine
integers are `Nat` with `% 2 ^ w` where the source truncates.
-/

set_option maxRecDepth 4000

/-! ## Bytes and strings -/

/-- The bytes of an ASCII string (each char's code point; all strings in the
wire format at hand are ASCII, where this agrees with UTF-8). -/
def strBytes (s : String) : List Nat :=
  s.data.map Char.toNat

/-- The octal digit string of a natural number (e.g. `420 ↦ "644"`). -/
def octRepr (n : Nat) : String :=
  String.mk (Nat.toDigits 8 n)

/-- Go's `%#o` formatting of an unsigned integer: the octal digits prefixed
with `0`, except that `0` itself prints as `"0"` (its digits already begin
with `0`, so the alternate form adds nothing). -/
def goSharpOct (n : Nat) : String :=
  if n = 0 then "0" else "0" ++ octRepr n

/-- Rendering of the spec's header mode field read literally as "the mode in
octal with a single leading 0": one `0` followed by the octal digits. -/
def specModeOctal (n : Nat) : String :=
  "0" ++ octRepr n

/-! ## Remote Copy Framer (`client.go`, `_copy` and its wrappers)

`_copy(size, mode, fileName, destination, contents, conn)` opens a session,
starts `scp -t <destination>`, writes the header line
`fmt.Sprintf("C%#o %d %s\n", mode, size, fileName)`, copies `contents`
(`io.Copy`, whose error the source discards), writes one NUL byte, and
closes the write side, returning the close error. -/

/-- One observable action on the session's input stream. -/
inductive WireEvent where
  | write (bytes : List Nat)
  | closeWrite
deriving DecidableEq

/-- Fault environment for one `_copy` call: which stage fails and with what
error text. `bodyCopyErr` carries the number of payload bytes that were
copied before `io.Copy` failed. -/
structure CopyFaults where
  newSessionErr : Option String
  startErr : Option String
  headerWriteErr : Option String
  bodyCopyErr : Option (Nat × String)
  termWriteErr : Option String
  closeErr : Option String
deriving DecidableEq

/-- The fault-free environment. -/
def noFaults : CopyFaults :=
  ⟨none, none, none, none, none, none⟩

/-- Result of one `_copy` call: the error returned to the caller, the
command started on the session (if `Start` succeeded), and the event trace
on the session's input stream. -/
structure CopyOutcome where
  err : Option String
  startedCmd : Option String
  trace : List WireEvent
deriving DecidableEq

/-- The header line `fmt.Sprintf("C%#o %d %s\n", mode, size, fileName)`. -/
def copyHeader (mode size : Nat) (fileName : String) : String :=
  "C" ++ goSharpOct mode ++ " " ++ Nat.repr size ++ " " ++ fileName ++ "\n"

/-- Embedding of `_copy` from `client.go`. Stage order as in the source:
`conn.NewSession()`, `session.StdinPipe()` (error ignored there),
`session.Start("scp -t " ++ destination)`, header `w.Write` (returned on
failure), `io.Copy(w, contents)` (its error is NOT checked by the source),
terminator `w.Write` (returned on failure), `w.Close()` (returned). -/
def copyRun (size mode : Nat) (fileName destination : String)
    (contents : List Nat) (f : CopyFaults) : CopyOutcome :=
  match f.newSessionErr with
  | some e => ⟨some e, none, []⟩
  | none =>
    let cmd := "scp -t " ++ destination
    match f.startErr with
    | some e => ⟨some e, none, []⟩
    | none =>
      match f.headerWriteErr with
      | some e => ⟨some e, some cmd, []⟩
      | none =>
        let hdr := WireEvent.write (strBytes (copyHeader mode size fileName))
        let body := WireEvent.write
          (match f.bodyCopyErr with
           | some (n, _) => contents.take n
           | none => contents)
        match f.termWriteErr with
        | some e => ⟨some e, some cmd, [hdr, body]⟩
        | none =>
          ⟨f.closeErr, some cmd, [hdr, body, .write [0], .closeWrite]⟩

/-- Embedding of `CopyWithFileMode`: wraps the data in a reader and calls
`_copy` with `size = len(data)`. -/
def CopyWithFileMode (mode : Nat) (filename destinationPath : String)
    (data : List Nat) (f : CopyFaults) : CopyOutcome :=
  copyRun data.length mode filename destinationPath data f

/-- Embedding of `Copy`: `CopyWithFileMode` with mode `0664`. -/
def Copy (filename destinationPath : String) (data : List Nat)
    (f : CopyFaults) : CopyOutcome :=
  CopyWithFileMode 0o664 filename destinationPath data f

/-- All bytes written on the stream, in order. -/
def sentBytes : List WireEvent → List Nat
  | [] => []
  | .write bs :: rest => bs ++ sentBytes rest
  | .closeWrite :: rest => sentBytes rest

/-! ## A receiving mock for the copy wire format -/

/-- Split a byte list at the first occurrence of `sep` (the separator is
consumed); `none` when `sep` does not occur. -/
def splitAtByte (sep : Nat) : List Nat → Option (List Nat × List Nat)
  | [] => none
  | b :: rest =>
    if b = sep then some ([], rest)
    else
      match splitAtByte sep rest with
      | some (pre, post) => some (b :: pre, post)
      | none => none

/-- The value of one ASCII digit in the given base (bases at most 10). -/
def asciiDigit (base b : Nat) : Option Nat :=
  if 48 ≤ b ∧ b < 48 + base then some (b - 48) else none

/-- The value of a nonempty ASCII digit string in the given base. -/
def asciiNum (base : Nat) (ds : List Nat) : Option Nat :=
  if ds = [] then none
  else
    ds.foldl
      (fun acc d => acc.bind fun n => (asciiDigit base d).map fun v => base * n + v)
      (some 0)

/-- Modelled from the spec: the receiving mock of the copy protocol (the
remote `scp -t` sink is not part of this repository). It parses the header
line `C<mode octal> <length decimal> <name>\n`, then exactly `length`
payload bytes, then a single `0x00` terminator ending the stream, and
recovers `(mode, length, name, payload)`. -/
def scpReceive (bs : List Nat) : Option (Nat × Nat × String × List Nat) :=
  match bs with
  | 67 :: rest =>
    (splitAtByte 32 rest).bind fun p1 =>
    (asciiNum 8 p1.1).bind fun mode =>
    (splitAtByte 32 p1.2).bind fun p2 =>
    (asciiNum 10 p2.1).bind fun len =>
    (splitAtByte 10 p2.2).bind fun p3 =>
    if p3.2.length = len + 1 ∧ p3.2.drop len = [0] then
      some (mode, len, String.mk (p3.1.map Char.ofNat), p3.2.take len)
    else none
  | _ => none

/-! ## Server Channel Handler (`handleChannel`, `parseDims`, `SetWinsize`)

The handler's request loop reads in-band requests. `parseDims` reads two
big-endian 32-bit integers from the payload with unchecked indexing (Go
panics on short input; modelled as `none`). The `pty-req` branch reads
`Payload[3]` as the term-name length (a Go `byte`, so the later `termLen+4`
is 8-bit arithmetic) and slices from that offset before decoding. -/

/-- Big-endian 32-bit decode of the first four entries of a byte list,
`binary.BigEndian.Uint32`. The catch-all case is unreachable under the
bounds guard of `parseDims` below (Go would already have panicked). -/
def beU32 : List Nat → Nat
  | b0 :: b1 :: b2 :: b3 :: _ => b0 * 16777216 + b1 * 65536 + b2 * 256 + b3
  | _ => 0

/-- Big-endian 32-bit encode of `n < 2^32` (the payload layout the client
sends). -/
def be32 (n : Nat) : List Nat :=
  [n / 16777216 % 256, n / 65536 % 256, n / 256 % 256, n % 256]

/-- Embedding of `parseDims`: `w := Uint32(b); h := Uint32(b[4:])`. Both
reads together are in bounds exactly when the buffer has at least 8 bytes;
otherwise Go panics, modelled as `none`. -/
def parseDims (b : List Nat) : Option (Nat × Nat) :=
  if 8 ≤ b.length then some (beU32 b, beU32 (b.drop 4)) else none

/-- Embedding of the `Winsize` struct (`Height`, `Width`, `x`, `y`, each a
`uint16`, values therefore reduced `% 2 ^ 16` at construction). -/
structure Winsize where
  Height : Nat
  Width : Nat
  x : Nat
  y : Nat
deriving DecidableEq

/-- Embedding of `SetWinsize(fd, w, h)`: builds
`Winsize{Width: uint16(w), Height: uint16(h)}` — the 32-bit dimensions are
narrowed to their low 16 bits — and issues `TIOCSWINSZ`; the struct passed
to the ioctl is the observable effect. -/
def SetWinsize (w h : Nat) : Winsize :=
  ⟨h % 65536, w % 65536, 0, 0⟩

/-- Observable effect of one in-band request: the geometry applied to the
PTY (if any) and the reply sent (if any). -/
structure ReqOutcome where
  applied : Option Winsize
  reply : Option Bool
deriving DecidableEq

/-- Embedding of the `window-change` branch:
`w, h := parseDims(req.Payload); SetWinsize(bashf.Fd(), w, h)` — no reply.
`none` is Go's out-of-bounds panic inside `parseDims`. -/
def handleWindowChange (payload : List Nat) : Option ReqOutcome :=
  (parseDims payload).map fun wh => ⟨some (SetWinsize wh.1 wh.2), none⟩

/-- Embedding of the `pty-req` branch:
`termLen := req.Payload[3]` (panics when the payload is shorter than 4),
`parseDims(req.Payload[termLen+4:])` (`termLen+4` is Go `byte` arithmetic,
hence `% 256`; the slice panics when the offset exceeds the length),
`SetWinsize`, then `req.Reply(true, nil)`. `none` is a panic. -/
def handlePtyReq (payload : List Nat) : Option ReqOutcome :=
  if 4 ≤ payload.length then
    if (payload.getD 3 0 + 4) % 256 ≤ payload.length then
      (parseDims (payload.drop ((payload.getD 3 0 + 4) % 256))).map fun wh =>
        ⟨some (SetWinsize wh.1 wh.2), some true⟩
    else none
  else none

/-- Outcome of `handleChannel`'s type dispatch for one incoming channel. -/
inductive ChannelOutcome where
  | rejected (reason : String)
  | accepted
deriving DecidableEq

/-- Embedding of `handleChannel`'s leading type check: anything other than
`"session"` is rejected with `unknown channel type: <type>` and the handler
returns; `"session"` proceeds to `Accept`. -/
def handleChannelType (t : String) : ChannelOutcome :=
  if t = "session" then .accepted
  else .rejected ("unknown channel type: " ++ t)

/-- Embedding of `handleChannels`: the accept loop ranges over every
incoming channel and dispatches each in its own task; no outcome stops the
loop. -/
def handleChannels (ts : List String) : List ChannelOutcome :=
  ts.map handleChannelType

/-! ## Shell teardown single-fire guard (`handleChannel`'s relay)

After the PTY starts, the source installs `close` (close the channel, wait
for the shell, log a failed exit, log session close) behind a `sync.Once`;
each of the two copy tasks calls `once.Do(close)` when its `io.Copy`
returns. `sync.Once.Do` is internally serialized, so a race is an arbitrary
order of atomic `Do` calls. -/

/-- One step of the teardown sequence. -/
inductive TeardownStep where
  | closeChannel
  | waitShell
  | logExitErr (e : String)
  | logSessionClosed
deriving DecidableEq

/-- The body of the `close` closure: `connection.Close()`, then
`bash.Process.Wait()`; a wait error is logged (not returned), then
"Session closed" is logged. -/
def teardownSeq (exitErr : Option String) : List TeardownStep :=
  [.closeChannel, .waitShell]
    ++ (match exitErr with | some e => [.logExitErr e] | none => [])
    ++ [.logSessionClosed]

/-- `sync.Once` state plus `Once.Do act`: run `act` only when not yet done. -/
def onceDo (done : Bool) (act : List TeardownStep) : Bool × List TeardownStep :=
  if done then (true, []) else (true, act)

/-- The steps emitted when the copy tasks complete in the given order
(one list entry per completed copy task; each completion calls
`once.Do(close)`). -/
def relayTeardown (completions : List Unit) (exitErr : Option String) :
    List TeardownStep :=
  (completions.foldl
    (fun acc _ =>
      let r := onceDo acc.1 (teardownSeq exitErr)
      (r.1, acc.2 ++ r.2))
    (false, [])).2

/-! ## Forwarding Tunnel (`Forward` in `client.go`)

Per accepted local connection a task runs: log "Starting session...", call
`forwardFunc`; if it returned an error, log it — the source then falls
through and unconditionally starts the three copy goroutines
(stdout→local, local→stdin, stderr→buffer). -/

/-- One observable action of the per-connection task in `Forward`. -/
inductive FwdAction where
  | logStarting
  | logError (e : String)
  | copyStdoutToLocal
  | copyLocalToStdin
  | copyStderrToLog
deriving DecidableEq

/-- Embedding of the per-connection goroutine body of `Forward`, as a
function of `forwardFunc`'s error result (`some e` = non-nil error). -/
def forwardConnBody (openErr : Option String) : List FwdAction :=
  [.logStarting]
    ++ (match openErr with | some e => [.logError e] | none => [])
    ++ [.copyStdoutToLocal, .copyLocalToStdin, .copyStderrToLog]

/-- The copy tasks started by one per-connection task. -/
def startedCopies (acts : List FwdAction) : List FwdAction :=
  acts.filter fun a =>
    a = .copyStdoutToLocal ∨ a = .copyLocalToStdin ∨ a = .copyStderrToLog

example : strBytes "hello" = [104, 101, 108, 108, 111] := by decide
example : goSharpOct 0o644 = "0644" := by decide
example : copyHeader 0o644 5 "hello.txt" = "C0644 5 hello.txt\n" := by decide
example :
    sentBytes (CopyWithFileMode 0o644 "hello.txt" "/tmp/h" (strBytes "hello") noFaults).trace
      = strBytes "C0644 5 hello.txt\n" ++ strBytes "hello" ++ [0] := by decide
example :
    scpReceive (strBytes "C0644 5 hello.txt\n" ++ strBytes "hello" ++ [0])
      = some (0o644, 5, "hello.txt", strBytes "hello") := by decide

/-! ## Shared lemmas -/

/-- Decoding an encoded (width, height) pair recovers it exactly. -/
lemma parseDims_be32 (w h : Nat) (hw : w < 4294967296) (hh : h < 4294967296) :
    parseDims (be32 w ++ be32 h) = some (w, h) := by
  have hlen : (be32 w ++ be32 h).length = 8 := by simp [be32]
  have h1 : beU32 (be32 w ++ be32 h) = w := by
    show w / 16777216 % 256 * 16777216 + w / 65536 % 256 * 65536
        + w / 256 % 256 * 256 + w % 256 = w
    omega
  have h2 : beU32 ((be32 w ++ be32 h).drop 4) = h := by
    show h / 16777216 % 256 * 16777216 + h / 65536 % 256 * 65536
        + h / 256 % 256 * 256 + h % 256 = h
    omega
  unfold parseDims
  rw [if_pos (by omega), h1, h2]

/-- The `pty-req` branch on a payload laid out as the client sends it
(4-byte big-endian length, name, width, height), provided the length fits
the low byte and the 8-bit offset arithmetic does not wrap. -/
lemma ptyReq_decode (L : Nat) (name : List Nat) (w h : Nat)
    (hn : name.length = L) (hL : L ≤ 251)
    (hw : w < 4294967296) (hh : h < 4294967296) :
    handlePtyReq (be32 L ++ name ++ be32 w ++ be32 h)
      = some ⟨some (SetWinsize w h), some true⟩ := by
  have hlen : (be32 L ++ name ++ be32 w ++ be32 h).length = L + 12 := by
    simp only [be32, List.length_append, List.length_cons, List.length_nil, hn]
    omega
  have hb3 : (be32 L ++ name ++ be32 w ++ be32 h).getD 3 0 = L := by
    show L % 256 = L
    omega
  have hdrop : (be32 L ++ name ++ be32 w ++ be32 h).drop (L + 4)
      = be32 w ++ be32 h := by
    have h1 : be32 L ++ name ++ be32 w ++ be32 h
        = (be32 L ++ name) ++ (be32 w ++ be32 h) := by
      simp [List.append_assoc]
    have h2 : (be32 L ++ name).length = L + 4 := by
      simp [be32, hn]
    rw [h1, ← h2, List.drop_left]
  have hm : (L + 4) % 256 = L + 4 := Nat.mod_eq_of_lt (by omega)
  unfold handlePtyReq
  rw [hb3, hm, if_pos (by omega), if_pos (by omega), hdrop,
    parseDims_be32 w h hw hh]
  rfl

/-- Once the guard has fired, further completions emit no steps. -/
lemma teardown_fold_done (cs : List Unit) (exitErr : Option String)
    (acc : List TeardownStep) :
    cs.foldl
      (fun acc _ =>
        let r := onceDo acc.1 (teardownSeq exitErr)
        (r.1, acc.2 ++ r.2))
      (true, acc) = (true, acc) := by
  induction cs generalizing acc with
  | nil => rfl
  | cons c cs ih => simpa [onceDo] using ih acc

/-! ## Claims -/

/-- C1: the claim's exact byte sequence is wrong on the code: with mode
`0644` the header `fmt.Sprintf("C%#o ...")` prints the mode as `0644`
(leading zero), so the framer emits `C0644 5 hello.txt\n`, not
`C644 5 hello.txt\n`. -/
theorem C1_counterexample :
    sentBytes (CopyWithFileMode 0o644 "hello.txt" "/tmp/hello.txt"
        (strBytes "hello") noFaults).trace
      ≠ strBytes "C644 5 hello.txt\n" ++ strBytes "hello" ++ [0] := by
  decide

/-- C1 (amended): a successful copy of the 5-byte payload `hello` with mode
`0644` and name `hello.txt` writes exactly `C0644 5 hello.txt\n`, then the
5 payload bytes, then one `0x00` byte, and the receiving mock recovers
exactly the original 5 bytes under the name `hello.txt`. -/
theorem C1_roundtrip_amended :
    (CopyWithFileMode 0o644 "hello.txt" "/tmp/hello.txt"
        (strBytes "hello") noFaults).err = none ∧
    sentBytes (CopyWithFileMode 0o644 "hello.txt" "/tmp/hello.txt"
        (strBytes "hello") noFaults).trace
      = strBytes "C0644 5 hello.txt\n" ++ strBytes "hello" ++ [0] ∧
    scpReceive (sentBytes (CopyWithFileMode 0o644 "hello.txt" "/tmp/hello.txt"
        (strBytes "hello") noFaults).trace)
      = some (0o644, 5, "hello.txt", strBytes "hello") := by
  refine ⟨by decide, by decide, by decide⟩

/-- C2: at mode `0` the code emits the header mode field `0` (Go `%#o`),
not the claim's "octal with a single leading 0" (which would be `00`). -/
theorem C2_counterexample :
    sentBytes (CopyWithFileMode 0 "f" "/tmp/f" [] noFaults).trace
        = strBytes "C0 0 f\n" ++ [0] ∧
    sentBytes (CopyWithFileMode 0 "f" "/tmp/f" [] noFaults).trace
        ≠ strBytes ("C" ++ specModeOctal 0 ++ " 0 f\n") ++ [0] := by
  refine ⟨by decide, by decide⟩

/-- C2 (amended): for every mode, payload and name, a fault-free copy call
sends exactly one header line `C<mode %#o> <length decimal> <name>\n`, then
the payload verbatim, then exactly one `0x00` byte, then closes the write
side, returning no error; for every nonzero mode the `%#o` mode field is
the octal digits with a single leading `0` (mode `0` prints as `0`). -/
theorem C2_wire_format_amended (mode : Nat) (filename destinationPath : String)
    (data : List Nat) :
    (CopyWithFileMode mode filename destinationPath data noFaults).err = none ∧
    (CopyWithFileMode mode filename destinationPath data noFaults).trace
      = [.write (strBytes ("C" ++ goSharpOct mode ++ " "
            ++ Nat.repr data.length ++ " " ++ filename ++ "\n")),
         .write data, .write [0], .closeWrite] ∧
    (mode ≠ 0 → goSharpOct mode = specModeOctal mode) := by
  refine ⟨rfl, rfl, fun hm => ?_⟩
  simp [goSharpOct, specModeOctal, hm]

/-- Witness for C2 at mode `0644`, payload `hello`, name `hello.txt`. -/
theorem C2_wire_format_witness :
    (CopyWithFileMode 0o644 "hello.txt" "/tmp/hello.txt"
        (strBytes "hello") noFaults).err = none ∧
    goSharpOct 0o644 = specModeOctal 0o644 :=
  ⟨(C2_wire_format_amended 0o644 "hello.txt" "/tmp/hello.txt"
      (strBytes "hello")).1,
   (C2_wire_format_amended 0o644 "hello.txt" "/tmp/hello.txt"
      (strBytes "hello")).2.2 (by decide)⟩

/-- C3: when the session opener fails, the source logs the error but falls
through (there is no early return), so all three copy tasks are still
started for that connection — the claim that none runs is false. -/
theorem C3_counterexample :
    startedCopies (forwardConnBody (some "dial tcp: connection refused"))
        = [.copyStdoutToLocal, .copyLocalToStdin, .copyStderrToLog] ∧
    startedCopies (forwardConnBody (some "dial tcp: connection refused")) ≠ [] := by
  refine ⟨by decide, by decide⟩

/-- C3 (amended): for every accepted local connection whose session opener
returns a non-nil error, the error is logged and the three copy tasks are
nevertheless started, exactly as in the success case. -/
theorem C3_forward_open_error_amended (e : String) :
    forwardConnBody (some e)
      = [.logStarting, .logError e, .copyStdoutToLocal, .copyLocalToStdin,
         .copyStderrToLog] ∧
    startedCopies (forwardConnBody (some e))
      = startedCopies (forwardConnBody none) := by
  refine ⟨rfl, rfl⟩

/-- C4: however many racing copy-task completions arrive (in any order, at
least one), the `sync.Once`-guarded teardown body runs exactly once: the
emitted steps are exactly one close-channel/wait-shell sequence, and a
shell-exit error is only logged, never escalated. -/
theorem C4_teardown_once (completions : List Unit) (exitErr : Option String)
    (h : completions ≠ []) :
    relayTeardown completions exitErr = teardownSeq exitErr ∧
    (relayTeardown completions exitErr).count .closeChannel = 1 ∧
    (relayTeardown completions exitErr).count .waitShell = 1 ∧
    (∀ e, exitErr = some e →
      .logExitErr e ∈ relayTeardown completions exitErr) := by
  have hrun : relayTeardown completions exitErr = teardownSeq exitErr := by
    match completions, h with
    | c :: cs, _ =>
      unfold relayTeardown
      simp only [List.foldl_cons, onceDo]
      rw [if_neg (by simp)]
      simpa using congrArg Prod.snd (teardown_fold_done cs exitErr (teardownSeq exitErr))
  refine ⟨hrun, ?_, ?_, ?_⟩
  · rw [hrun]; cases exitErr <;> simp [teardownSeq, List.count_cons]
  · rw [hrun]; cases exitErr <;> simp [teardownSeq, List.count_cons]
  · intro e he; rw [hrun, he]; simp [teardownSeq]

/-- Witness for C4: two racing completions, shell exited with an error. -/
theorem C4_teardown_once_witness :
    relayTeardown [(), ()] (some "exit status 1")
        = teardownSeq (some "exit status 1") ∧
    (relayTeardown [(), ()] (some "exit status 1")).count .closeChannel = 1 ∧
    (relayTeardown [(), ()] (some "exit status 1")).count .waitShell = 1 ∧
    (∀ e, (some "exit status 1" : Option String) = some e →
      .logExitErr e ∈ relayTeardown [(), ()] (some "exit status 1")) :=
  C4_teardown_once [(), ()] (some "exit status 1") (by decide)

/-- C5: every channel whose declared type is not `"session"` is rejected
with reason `unknown channel type: <type>` without being accepted, and the
accept loop services every other incoming channel unaffected. -/
theorem C5_reject_unknown (t : String) (pre post : List String)
    (h : t ≠ "session") :
    handleChannelType t = .rejected ("unknown channel type: " ++ t) ∧
    handleChannels (pre ++ t :: post)
      = handleChannels pre
          ++ .rejected ("unknown channel type: " ++ t) :: handleChannels post ∧
    (handleChannels (pre ++ t :: post)).length
      = pre.length + 1 + post.length := by
  have h1 : handleChannelType t = .rejected ("unknown channel type: " ++ t) := by
    simp [handleChannelType, h]
  refine ⟨h1, ?_, ?_⟩
  · simp [handleChannels, h1]
  · simp [handleChannels]
    omega

/-- Witness for C5: an `x11` channel between two `session` channels. -/
theorem C5_reject_unknown_witness :
    handleChannelType "x11" = .rejected ("unknown channel type: " ++ "x11") ∧
    handleChannels (["session"] ++ "x11" :: ["session"])
      = handleChannels ["session"]
          ++ .rejected ("unknown channel type: " ++ "x11")
            :: handleChannels ["session"] ∧
    (handleChannels (["session"] ++ "x11" :: ["session"])).length
      = (["session"] : List String).length + 1 + (["session"] : List String).length :=
  C5_reject_unknown "x11" ["session"] ["session"] (by decide)

/-- C6: the handler reads only the low byte of the 4-byte term-name length
(`Payload[3]`): for a well-formed `pty-req` payload with term-name length
256, it decodes the first name bytes as the dimensions instead of the
claimed width 120 / height 40. -/
theorem C6_counterexample :
    handlePtyReq (be32 256 ++ List.replicate 256 65 ++ be32 120 ++ be32 40)
      ≠ some ⟨some (SetWinsize 120 40), some true⟩ := by
  decide

/-- C6 (amended): for every `pty-req` payload of the claimed layout whose
term-name length `L` is at most 251 (so `Payload[3] = L` and the 8-bit
offset `termLen+4` does not wrap), the handler decodes exactly the encoded
width and height from offset `L+4`, applies them to the PTY, and replies
affirmatively. -/
theorem C6_ptyreq_dims_amended (L : Nat) (name : List Nat) (w h : Nat)
    (hn : name.length = L) (hL : L ≤ 251)
    (hw : w < 4294967296) (hh : h < 4294967296) :
    handlePtyReq (be32 L ++ name ++ be32 w ++ be32 h)
      = some ⟨some (SetWinsize w h), some true⟩ :=
  ptyReq_decode L name w h hn hL hw hh

/-- Witness for C6: term name `xterm`, width 120, height 40. -/
theorem C6_ptyreq_dims_witness :
    handlePtyReq (be32 5 ++ strBytes "xterm" ++ be32 120 ++ be32 40)
      = some ⟨some (SetWinsize 120 40), some true⟩ :=
  C6_ptyreq_dims_amended 5 (strBytes "xterm") 120 40 (by decide) (by decide)
    (by decide) (by decide)

/-- C7: the `window-change` handler decodes width from payload offset 0 and
height from offset 4 (big-endian 32-bit), applies them via `SetWinsize`,
sends no reply; the payload `00 00 00 78 00 00 00 28` updates the geometry
to exactly width 120, height 40. -/
theorem C7_window_change (w h : Nat)
    (hw : w < 4294967296) (hh : h < 4294967296) :
    parseDims (be32 w ++ be32 h) = some (w, h) ∧
    handleWindowChange (be32 w ++ be32 h)
      = some ⟨some (SetWinsize w h), none⟩ ∧
    handleWindowChange [0x00, 0x00, 0x00, 0x78, 0x00, 0x00, 0x00, 0x28]
      = some ⟨some ⟨40, 120, 0, 0⟩, none⟩ := by
  refine ⟨parseDims_be32 w h hw hh, ?_, by decide⟩
  simp [handleWindowChange, parseDims_be32 w h hw hh]

/-- Witness for C7 at width 120, height 40. -/
theorem C7_window_change_witness :
    parseDims (be32 120 ++ be32 40) = some (120, 40) ∧
    handleWindowChange (be32 120 ++ be32 40)
      = some ⟨some (SetWinsize 120 40), none⟩ ∧
    handleWindowChange [0x00, 0x00, 0x00, 0x78, 0x00, 0x00, 0x00, 0x28]
      = some ⟨some ⟨40, 120, 0, 0⟩, none⟩ :=
  C7_window_change 120 40 (by decide) (by decide)

/-- C8: a failure of the payload-body copy stage alone is NOT surfaced: the
source discards `io.Copy`'s error, so the caller receives nil even though
that write stage failed. -/
theorem C8_counterexample :
    (copyRun 5 0o644 "hello.txt" "/tmp/hello.txt" (strBytes "hello")
        ⟨none, none, none, some (2, "broken pipe"), none, none⟩).err = none := by
  decide

/-- C8 (amended): the error returned by `_copy` is exactly the first
failure among session-open, command-start, header-write, terminator-write
and close — each surfaced verbatim, with no retry — while a payload-body
copy failure is silently discarded (alone it yields a nil error). -/
theorem C8_errors_amended (size mode : Nat) (fileName destination : String)
    (contents : List Nat) (f : CopyFaults) (bd : Option (Nat × String)) :
    (copyRun size mode fileName destination contents f).err
      = f.newSessionErr.or (f.startErr.or (f.headerWriteErr.or
          (f.termWriteErr.or f.closeErr))) ∧
    (copyRun size mode fileName destination contents
        ⟨none, none, none, bd, none, none⟩).err = none := by
  obtain ⟨ns, st, hw, b, tw, cl⟩ := f
  refine ⟨?_, ?_⟩
  · cases ns <;> cases st <;> cases hw <;> cases tw <;>
      simp [copyRun, Option.or]
  · cases bd <;> simp [copyRun]

/-- C9: whenever geometry reaches the TTY-control call (`SetWinsize`), from
either request type, the 32-bit dimensions are narrowed to their low 16
bits: the `Winsize` struct actually applied holds `w % 2^16` / `h % 2^16`. -/
theorem C9_winsize_narrowing (w h : Nat)
    (hw : w < 4294967296) (hh : h < 4294967296) :
    (SetWinsize w h).Width = w % 65536 ∧
    (SetWinsize w h).Height = h % 65536 ∧
    handleWindowChange (be32 w ++ be32 h)
      = some ⟨some ⟨h % 65536, w % 65536, 0, 0⟩, none⟩ ∧
    handlePtyReq (be32 0 ++ be32 w ++ be32 h)
      = some ⟨some ⟨h % 65536, w % 65536, 0, 0⟩, some true⟩ := by
  refine ⟨rfl, rfl, ?_, ?_⟩
  · simp [handleWindowChange, parseDims_be32 w h hw hh, SetWinsize]
  · have := ptyReq_decode 0 [] w h rfl (by omega) hw hh
    simpa [SetWinsize] using this

/-- Witness for C9 at width 70000 (≥ 2^16, applied as 4464), height 40. -/
theorem C9_winsize_narrowing_witness :
    (SetWinsize 70000 40).Width = 70000 % 65536 ∧
    (SetWinsize 70000 40).Height = 40 % 65536 ∧
    handleWindowChange (be32 70000 ++ be32 40)
      = some ⟨some ⟨40 % 65536, 70000 % 65536, 0, 0⟩, none⟩ ∧
    handlePtyReq (be32 0 ++ be32 70000 ++ be32 40)
      = some ⟨some ⟨40 % 65536, 70000 % 65536, 0, 0⟩, some true⟩ :=
  C9_winsize_narrowing 70000 40 (by decide) (by decide)

/-- C10: the claimed pty-req out-of-bounds condition is wrong when the
8-bit offset arithmetic wraps: with `Payload[3] = 252` the offset
`termLen+4` wraps to 0, so an 8-byte payload (shorter than `termLen+12 =
264`) is handled without any out-of-bounds access. -/
theorem C10_counterexample :
    ([0, 0, 0, 252, 9, 9, 9, 9] : List Nat).length
        < ([0, 0, 0, 252, 9, 9, 9, 9] : List Nat).getD 3 0 + 12 ∧
    handlePtyReq [0, 0, 0, 252, 9, 9, 9, 9] ≠ none := by
  refine ⟨by decide, by decide⟩

/-- C10 (amended): the request handling indexes without bounds checks: a
`window-change` payload shorter than 8 bytes panics; a `pty-req` payload
shorter than 4 bytes panics reading byte 3; and a `pty-req` payload with
`termLen := Payload[3] ≤ 251` (no 8-bit wrap of `termLen+4`) shorter than
`termLen+12` bytes panics, instead of rejecting the request or returning an
error. -/
theorem C10_oob_amended :
    (∀ p : List Nat, p.length < 8 → handleWindowChange p = none) ∧
    (∀ p : List Nat, p.length < 4 → handlePtyReq p = none) ∧
    (∀ p : List Nat, 4 ≤ p.length → p.getD 3 0 ≤ 251 →
      p.length < p.getD 3 0 + 12 → handlePtyReq p = none) := by
  refine ⟨?_, ?_, ?_⟩
  · intro p hp
    unfold handleWindowChange parseDims
    rw [if_neg (by omega)]
    rfl
  · intro p hp
    unfold handlePtyReq
    rw [if_neg (by omega)]
  · intro p h4 hb hlen
    have hm : (p.getD 3 0 + 4) % 256 = p.getD 3 0 + 4 :=
      Nat.mod_eq_of_lt (by omega)
    unfold handlePtyReq
    rw [if_pos h4, hm]
    by_cases hi : p.getD 3 0 + 4 ≤ p.length
    · rw [if_pos hi]
      have hshort : ¬ 8 ≤ (p.drop (p.getD 3 0 + 4)).length := by
        rw [List.length_drop]
        omega
      unfold parseDims
      rw [if_neg hshort]
      rfl
    · rw [if_neg hi]

/-- Witness for C10: a 4-byte `window-change`, a 2-byte `pty-req`, and a
5-byte `pty-req` whose term-name length byte is 2. -/
theorem C10_oob_witness :
    handleWindowChange [0, 0, 0, 120] = none ∧
    handlePtyReq [0, 0] = none ∧
    handlePtyReq [0, 0, 0, 2, 5] = none :=
  ⟨C10_oob_amended.1 [0, 0, 0, 120] (by decide),
   C10_oob_amended.2.1 [0, 0] (by decide),
   C10_oob_amended.2.2 [0, 0, 0, 2, 5] (by decide) (by decide) (by decide)⟩
